import Mathlib

/-!
Verification of `efficientdet/det_model_fn.py` (learning-rate schedules,
focal/box/detection losses, and the estimator model function) against its
natural-language specification.

Modelling conventions:
* TensorFlow float tensors are modelled over `ℝ` (exact real arithmetic);
  elementwise tensors are `List ℝ` and scalars are `ℝ`.
* Integer-valued step counters and thresholds are `ℕ`.
* Configuration-parameter arithmetic (`update_learning_rate_schedule_parameters`)
  is purely rational and modelled over `ℚ`, keeping it executable.
* Python `raise` is modelled with `Except String` / `Option`; graph-construction
  order inside `_model_fn` is modelled as an explicit event trace.
-/

namespace DetModelFn

/-! ## Learning-rate schedules (source lines 57–146) -/

/-- `stepwise_lr_schedule` (source lines 57–74): a linear warmup guarded by
`tf.where(global_step < lr_warmup_step, …)`, followed by the loop over
`lr_schedule = [[1.0, lr_warmup_step], [0.1, first_lr_drop_step], [0.01, second_lr_drop_step]]`,
each iteration rewriting the rate by `tf.where(global_step < start, lr, adjusted * mult)`. -/
noncomputable def stepwise_lr_schedule (adjusted_learning_rate lr_warmup_init : ℝ)
    (lr_warmup_step first_lr_drop_step second_lr_drop_step : ℕ) (global_step : ℕ) : ℝ :=
  let linear_warmup : ℝ :=
    lr_warmup_init +
      (global_step : ℝ) / (lr_warmup_step : ℝ) * (adjusted_learning_rate - lr_warmup_init)
  let lr0 : ℝ := if global_step < lr_warmup_step then linear_warmup else adjusted_learning_rate
  let lr1 : ℝ := if global_step < lr_warmup_step then lr0 else adjusted_learning_rate * 1.0
  let lr2 : ℝ := if global_step < first_lr_drop_step then lr1 else adjusted_learning_rate * 0.1
  if global_step < second_lr_drop_step then lr2 else adjusted_learning_rate * 0.01

/-- `cosine_lr_schedule_tf2` (source lines 77–95): `tf.cond(step <= lr_warmup_step, …)`
with the decay step and decay horizon both offset by `lr_warmup_step`. -/
noncomputable def cosine_lr_schedule_tf2 (adjusted_lr lr_warmup_init : ℝ)
    (lr_warmup_step total_steps : ℕ) (step : ℕ) : ℝ :=
  let warmup_lr : ℝ :=
    lr_warmup_init + (adjusted_lr - lr_warmup_init) * ((step : ℝ) / (lr_warmup_step : ℝ))
  let decay_steps : ℝ := ((total_steps : ℤ) - (lr_warmup_step : ℤ) : ℤ)
  let stepf : ℝ := ((step : ℤ) - (lr_warmup_step : ℤ) : ℤ)
  let cosine_decay : ℝ := 0.5 * (1 + Real.cos (Real.pi * stepf / decay_steps))
  let alpha : ℝ := 0.0
  let decayed : ℝ := (1 - alpha) * cosine_decay + alpha
  if step ≤ lr_warmup_step then warmup_lr else adjusted_lr * decayed

/-- `cosine_lr_schedule` (source lines 98–106): warmup branch for
`step < lr_warmup_step` only, and the cosine decay counts `step` from zero
(no offset by `lr_warmup_step`). -/
noncomputable def cosine_lr_schedule (adjusted_lr lr_warmup_init : ℝ)
    (lr_warmup_step total_steps : ℕ) (step : ℕ) : ℝ :=
  let linear_warmup : ℝ :=
    lr_warmup_init + (step : ℝ) / (lr_warmup_step : ℝ) * (adjusted_lr - lr_warmup_init)
  let cosine_lr : ℝ :=
    0.5 * adjusted_lr * (1 + Real.cos (Real.pi * (step : ℝ) / (total_steps : ℝ)))
  if step < lr_warmup_step then linear_warmup else cosine_lr

/-- `polynomial_lr_schedule` (source lines 109–117). -/
noncomputable def polynomial_lr_schedule (adjusted_lr lr_warmup_init : ℝ)
    (lr_warmup_step : ℕ) (power : ℝ) (total_steps : ℕ) (step : ℕ) : ℝ :=
  let linear_warmup : ℝ :=
    lr_warmup_init + (step : ℝ) / (lr_warmup_step : ℝ) * (adjusted_lr - lr_warmup_init)
  let polynomial_lr : ℝ := adjusted_lr * (1 - (step : ℝ) / (total_steps : ℝ)) ^ power
  if step < lr_warmup_step then linear_warmup else polynomial_lr

/-- The finalized schedule-relevant fields of the `params` dictionary consumed by
`learning_rate_schedule` (source lines 120–146). -/
structure ScheduleParams where
  lr_decay_method : String
  adjusted_learning_rate : ℝ
  lr_warmup_init : ℝ
  lr_warmup_step : ℕ
  first_lr_drop_step : ℕ
  second_lr_drop_step : ℕ
  poly_lr_power : ℝ
  total_steps : ℕ

/-- `learning_rate_schedule` (source lines 120–146): string dispatch over
`lr_decay_method`; an unrecognized method raises
`ValueError('unknown lr_decay_method: {}')`. -/
noncomputable def learning_rate_schedule (p : ScheduleParams) (global_step : ℕ) :
    Except String ℝ :=
  if p.lr_decay_method = "stepwise" then
    Except.ok (stepwise_lr_schedule p.adjusted_learning_rate p.lr_warmup_init
      p.lr_warmup_step p.first_lr_drop_step p.second_lr_drop_step global_step)
  else if p.lr_decay_method = "cosine" then
    Except.ok (cosine_lr_schedule p.adjusted_learning_rate p.lr_warmup_init
      p.lr_warmup_step p.total_steps global_step)
  else if p.lr_decay_method = "polynomial" then
    Except.ok (polynomial_lr_schedule p.adjusted_learning_rate p.lr_warmup_init
      p.lr_warmup_step p.poly_lr_power p.total_steps global_step)
  else if p.lr_decay_method = "constant" then
    Except.ok p.adjusted_learning_rate
  else
    Except.error ("unknown lr_decay_method: " ++ p.lr_decay_method)

/-! ## Focal loss (source lines 149–185) -/

/-- `tf.sigmoid`. -/
noncomputable def sigmoid (x : ℝ) : ℝ := 1 / (1 + Real.exp (-x))

/-- The external TF primitive `tf.nn.sigmoid_cross_entropy_with_logits`, by its
documented mathematics (exact arithmetic):
`labels * -log(sigmoid(logits)) + (1 - labels) * -log(1 - sigmoid(logits))`. -/
noncomputable def sigmoid_cross_entropy_with_logits (labels logits : ℝ) : ℝ :=
  labels * -Real.log (sigmoid logits) + (1 - labels) * -Real.log (1 - sigmoid logits)

/-- One element of `focal_loss` (source lines 149–185): the focal multipliers
`p_t`, `alpha_factor`, `modulating_factor` are computed from the raw target,
label smoothing rewrites `y_true` afterwards, and the result is
`alpha_factor * modulating_factor * ce / normalizer`. The `gamma` power is
`Real.rpow` (TF `**` on float tensors). -/
noncomputable def focal_loss (y_pred y_true alpha gamma normalizer label_smoothing : ℝ) : ℝ :=
  let pred_prob := sigmoid y_pred
  let p_t := y_true * pred_prob + (1 - y_true) * (1 - pred_prob)
  let alpha_factor := y_true * alpha + (1 - y_true) * (1 - alpha)
  let modulating_factor := (1.0 - p_t) ^ gamma
  let y_true' := y_true * (1.0 - label_smoothing) + 0.5 * label_smoothing
  let ce := sigmoid_cross_entropy_with_logits y_true' y_pred
  alpha_factor * modulating_factor * ce / normalizer

/-- `focal_loss` as an elementwise map over parallel flattened tensors. -/
noncomputable def focal_loss_t (y_pred y_true : List ℝ)
    (alpha gamma normalizer label_smoothing : ℝ) : List ℝ :=
  (y_pred.zip y_true).map fun v => focal_loss v.1 v.2 alpha gamma normalizer label_smoothing

end DetModelFn

namespace DetModelFn

/-! ## `update_learning_rate_schedule_parameters` (source lines 39–54) -/

/-- Python `int()` on a float value: truncation toward zero. -/
def pyInt (q : ℚ) : ℤ := if q < 0 then -Int.floor (-q) else Int.floor q

/-- The primary fields read by `update_learning_rate_schedule_parameters`.
Python ints (`batch_size`, `num_shards`, `num_examples_per_epoch`) are embedded
into `ℚ` so that the float arithmetic of the source is exact. -/
structure LRParamsIn where
  strategy : String
  batch_size : ℚ
  num_shards : ℚ
  learning_rate : ℚ
  num_examples_per_epoch : ℚ
  lr_warmup_epoch : ℚ
  first_lr_drop_epoch : ℚ
  second_lr_drop_epoch : ℚ
  num_epochs : ℚ

/-- The derived fields written by `update_learning_rate_schedule_parameters`. -/
structure LRParamsOut where
  adjusted_learning_rate : ℚ
  lr_warmup_step : ℤ
  first_lr_drop_step : ℤ
  second_lr_drop_step : ℤ
  total_steps : ℤ

/-- `update_learning_rate_schedule_parameters` (source lines 39–54):
per-shard batch size is multiplied by `num_shards` only when
`strategy == 'tpu'`; `adjusted_learning_rate = learning_rate * batch_size / 64`
(`_DEFAULT_BATCH_SIZE = 64`); `steps_per_epoch = num_examples_per_epoch /
batch_size`; the four step counts are `int(epochs * steps_per_epoch)`. -/
def update_learning_rate_schedule_parameters (p : LRParamsIn) : LRParamsOut :=
  let batch_size : ℚ :=
    if p.strategy = "tpu" then p.batch_size * p.num_shards else p.batch_size
  let adjusted_learning_rate := p.learning_rate * batch_size / 64
  let steps_per_epoch := p.num_examples_per_epoch / batch_size
  { adjusted_learning_rate := adjusted_learning_rate
    lr_warmup_step := pyInt (p.lr_warmup_epoch * steps_per_epoch)
    first_lr_drop_step := pyInt (p.first_lr_drop_epoch * steps_per_epoch)
    second_lr_drop_step := pyInt (p.second_lr_drop_epoch * steps_per_epoch)
    total_steps := pyInt (p.num_epochs * steps_per_epoch) }

end DetModelFn

namespace DetModelFn

/-! ## `reg_l2_loss` (source lines 302–309) -/

/-- `tf.nn.l2_loss`: half the sum of squares of the (flattened) variable. -/
noncomputable def l2_loss (v : List ℝ) : ℝ := (v.map fun x => x ^ 2).sum / 2

/-- `leadMatch pat s` is true when `pat` is an initial segment of `s`. -/
def leadMatch : List Char → List Char → Bool
  | [], _ => true
  | _ :: _, [] => false
  | p :: ps, c :: cs => p == c && leadMatch ps cs

/-- `re.match(r'.*(kernel|weight):0$', v.name)` succeeds exactly when the
variable name ends with `kernel:0` or `weight:0`. -/
def var_match (name : String) : Bool :=
  leadMatch "kernel:0".data.reverse name.data.reverse ||
    leadMatch "weight:0".data.reverse name.data.reverse

/-- `reg_l2_loss` (source lines 302–309): `weight_decay * tf.add_n([tf.nn.l2_loss(v)
for v in tf.trainable_variables() if var_match.match(v.name)])`. A trainable
variable is its TF name paired with its flattened value. `tf.add_n` raises
`ValueError` on an empty list (the source itself guards its other `add_n` call
with `if box_losses else 0`), so the no-match case is `none`. -/
noncomputable def reg_l2_loss (weight_decay : ℝ)
    (trainable_variables : List (String × List ℝ)) : Option ℝ :=
  let matched := trainable_variables.filter fun v => var_match v.1
  if matched.isEmpty then none
  else some (weight_decay * (matched.map fun v => l2_loss v.2).sum)

/-- A renaming of the trainable-variable list that can change only names of
variables not matching the `kernel|weight` pattern (and keeps them
non-matching), leaving every value untouched. -/
def RenamedOutsidePattern (l l' : List (String × List ℝ)) : Prop :=
  List.Forall₂ (fun v v' => v.2 = v'.2 ∧ var_match v.1 = var_match v'.1 ∧
    (var_match v.1 = true → v.1 = v'.1)) l l'

end DetModelFn

namespace DetModelFn

/-! ## `_model_fn` control flow and the string dispatchers
(source lines 120–146, 312–554, 594–602) -/

/-- Python `'sub' in s`: substring containment. -/
def strContainsB (s sub : String) : Bool :=
  (List.range (s.data.length + 1)).any fun i => leadMatch sub.data (s.data.drop i)

/-- Lowercasing of one ASCII character, as Python `str.lower()` acts on the
ASCII names used here. -/
def charLower (c : Char) : Char :=
  if 65 ≤ c.toNat ∧ c.toNat ≤ 90 then Char.ofNat (c.toNat + 32) else c

/-- Python `s.lower()` on ASCII strings. -/
def pyLower (s : String) : String := String.mk (s.data.map charLower)

/-- Python truthiness of `params.get(key)` for an optional string value:
`None` and the empty string are falsy. -/
def truthy (o : Option String) : Bool :=
  match o with
  | none => false
  | some s => !s.data.isEmpty

/-- The four `lr_decay_method` strings recognized by `learning_rate_schedule`. -/
def valid_lr_decay_method (m : String) : Bool :=
  m == "stepwise" || m == "cosine" || m == "polynomial" || m == "constant"

/-- The TRAIN-mode optimizer selection in `_model_fn` (source lines 390–396):
`sgd` and `adam` (case-insensitive) are recognized; anything else raises
`ValueError('optimizers should be adam or sgd')` — a fixed message. -/
def select_optimizer (optimizer : String) : Except String String :=
  if pyLower optimizer = "sgd" then Except.ok "MomentumOptimizer"
  else if pyLower optimizer = "adam" then Except.ok "AdamOptimizer"
  else Except.error "optimizers should be adam or sgd"

/-- `get_model_fn` (source lines 594–602): substring dispatch on the model
name; an unrecognized name raises `ValueError('Invalide model name {}')`. -/
def get_model_fn (model_name : String) : Except String String :=
  if strContainsB model_name "retinanet" then Except.ok "retinanet_model_fn"
  else if strContainsB model_name "efficientdet" then Except.ok "efficientdet_model_fn"
  else Except.error ("Invalide model name " ++ model_name)

/-- Estimator mode (`tf.estimator.ModeKeys`). -/
inductive Mode
  | train
  | eval
  | predict
deriving DecidableEq

/-- Graph-construction milestones of `_model_fn`, in source order. -/
inductive MFEvent
  | forwardPass
  | lrDispatch
  | lossBuild
  | optimizerSelect
  | gradientBuild
  | evalMetrics
  | ckptConflictRaise
deriving DecidableEq

/-- The control-flow-relevant fields of the `params` dictionary inside
`_model_fn`. -/
structure ModelFnParams where
  lr_decay_method : String
  optimizer : String
  ckpt : Option String
  backbone_ckpt : Option String

/-- The event trace of `_model_fn` (source lines 312–554): the forward pass
(`build_model_with_precision`, line 342) always runs first; PREDICT returns
right after it; the LR dispatch (line 363, which raises on an unknown
`lr_decay_method`) and the loss graph (lines 366–369) follow; in TRAIN mode the
optimizer is selected (lines 390–396, raising on an unknown kind) and the
gradient step built (lines 410–426); only then, at checkpoint-restore setup
(lines 488–494), does supplying both `ckpt` and `backbone_ckpt` raise
`RuntimeError`. The second component is the raised error message, if any. -/
def model_fn_trace (mode : Mode) (p : ModelFnParams) : List MFEvent × Option String :=
  let evs := [MFEvent.forwardPass]
  if mode = Mode.predict then (evs, none)
  else
    let evs := evs ++ [MFEvent.lrDispatch]
    if valid_lr_decay_method p.lr_decay_method then
      let evs := evs ++ [MFEvent.lossBuild]
      if mode = Mode.train then
        let evs := evs ++ [MFEvent.optimizerSelect]
        if pyLower p.optimizer = "sgd" ∨ pyLower p.optimizer = "adam" then
          let evs := evs ++ [MFEvent.gradientBuild]
          if truthy p.ckpt ∧ truthy p.backbone_ckpt then
            (evs ++ [MFEvent.ckptConflictRaise],
              some "--backbone_ckpt and --checkpoint are mutually exclusive")
          else (evs, none)
        else (evs, some "optimizers should be adam or sgd")
      else
        (evs ++ [MFEvent.evalMetrics], none)
    else (evs, some ("unknown lr_decay_method: " ++ p.lr_decay_method))

end DetModelFn

namespace DetModelFn

/-! ## Detection loss (source lines 188–299) -/

/-- `tf.one_hot(t, depth)`: indicator row of length `depth`; any out-of-range
index — in particular the `-2` ignore sentinel and `-1` — yields all zeros. -/
noncomputable def one_hot (depth : ℕ) (t : ℤ) : List ℝ :=
  (List.range depth).map fun j => if t = (j : ℤ) then (1 : ℝ) else 0

/-- `tf.add_n`, which raises `ValueError` on an empty input list (the source
guards its box/iou uses with `if box_losses else 0` but not the others). -/
noncomputable def add_n (l : List ℝ) : Option ℝ :=
  if l.isEmpty then none else some l.sum

/-- Pointwise Huber loss of `tf.losses.huber_loss` with threshold `delta`:
`0.5 x²` for `|x| ≤ delta`, else `delta |x| - 0.5 delta²`. -/
noncomputable def huber_pointwise (delta x : ℝ) : ℝ :=
  if |x| ≤ delta then 0.5 * x ^ 2 else delta * |x| - 0.5 * delta ^ 2

/-- `_box_loss` (source lines 188–202): Huber loss on `outputs - targets`,
weighted by the mask `box_targets ≠ 0`, `SUM` reduction, divided by
`num_positives * 4.0`. -/
noncomputable def box_loss (box_outputs box_targets : List ℝ)
    (num_positives : ℝ) (delta : ℝ) : ℝ :=
  let normalizer := num_positives * 4.0
  let masked := (box_targets.zip box_outputs).map fun tb =>
    (if tb.1 = 0 then (0 : ℝ) else 1) * huber_pointwise delta (tb.2 - tb.1)
  masked.sum / normalizer

/-- `_box_iou_loss` (source lines 205–210): the geometric `iou_utils.iou_loss`
is an external collaborator, passed in as `iou_fn`; its elementwise output is
summed and divided by `num_positives * 4.0`. -/
noncomputable def box_iou_loss (iou_fn : List ℝ → List ℝ → List ℝ)
    (box_outputs box_targets : List ℝ) (num_positives : ℝ) : ℝ :=
  (iou_fn box_outputs box_targets).sum / (num_positives * 4.0)

/-- Hyperparameters read by `detection_loss`. `iou_loss_type` is the Python
truthiness of `params['iou_loss_type']`. -/
structure DetParams where
  num_classes : ℕ
  alpha : ℝ
  gamma : ℝ
  label_smoothing : ℝ
  delta : ℝ
  box_loss_weight : ℝ
  iou_loss_weight : ℝ
  iou_loss_type : Bool

/-- The label bundle consumed by `detection_loss`: per level the integer class
targets (`-2` = ignore sentinel) and the flattened float box targets, plus the
global `mean_num_positives`. -/
structure DetLabels where
  mean_num_positives : List ℝ
  cls_targets : List (List ℤ)
  box_targets : List (List ℝ)

/-- Per-level classification loss of `detection_loss` (source lines 243–275):
one-hot encode the integer class targets, apply `focal_loss` elementwise
against that anchor's logits, zero out every anchor whose class target equals
the ignore sentinel `-2`, and `reduce_sum`. The `channels_first`/`channels_last`
reshapes are pure layout bookkeeping and cancel in the sum. -/
noncomputable def cls_loss_level (p : DetParams) (normalizer : ℝ)
    (cls_targets : List ℤ) (cls_outputs : List (List ℝ)) : ℝ :=
  ((cls_targets.zip cls_outputs).map fun tl =>
    (if tl.1 = -2 then (0 : ℝ) else 1) *
      ((tl.2.zip (one_hot p.num_classes tl.1)).map fun yz =>
        focal_loss yz.1 yz.2 p.alpha p.gamma normalizer p.label_smoothing).sum).sum

/-- `detection_loss` (source lines 213–299) with the positive-count normalizer
abstracted as an explicit argument; the result is
`(total_loss, cls_loss, box_loss, box_iou_loss)`. -/
noncomputable def detection_loss_with (iou_fn : List ℝ → List ℝ → List ℝ)
    (cls_outputs : List (List (List ℝ))) (box_outputs : List (List ℝ))
    (labels : DetLabels) (p : DetParams) (num_positives_sum : ℝ) :
    Option (ℝ × ℝ × ℝ × ℝ) :=
  let cls_losses := (labels.cls_targets.zip cls_outputs).map fun tc =>
    cls_loss_level p num_positives_sum tc.1 tc.2
  let box_losses := if p.box_loss_weight ≠ 0 then
    (labels.box_targets.zip box_outputs).map fun tb =>
      box_loss tb.2 tb.1 num_positives_sum p.delta
    else []
  let box_iou_losses := if p.iou_loss_type then
    (labels.box_targets.zip box_outputs).map fun tb =>
      box_iou_loss iou_fn tb.2 tb.1 num_positives_sum
    else []
  (add_n cls_losses).map fun cls_l =>
    let box_l := if box_losses.isEmpty then (0 : ℝ) else box_losses.sum
    let iou_l := if box_iou_losses.isEmpty then (0 : ℝ) else box_iou_losses.sum
    (cls_l + p.box_loss_weight * box_l + p.iou_loss_weight * iou_l,
      cls_l, box_l, iou_l)

/-- `detection_loss` (source lines 213–299): the normalizer is
`num_positives_sum = tf.reduce_sum(labels['mean_num_positives']) + 1.0`
(line 237) and is used to normalize the classification, box-regression, and
box-IoU losses of every level; per-level box losses are only collected when
`params['box_loss_weight']` (respectively `params['iou_loss_type']`) is truthy,
and `tf.add_n(box_losses) if box_losses else 0` maps an empty collection to 0. -/
noncomputable def detection_loss (iou_fn : List ℝ → List ℝ → List ℝ)
    (cls_outputs : List (List (List ℝ))) (box_outputs : List (List ℝ))
    (labels : DetLabels) (p : DetParams) : Option (ℝ × ℝ × ℝ × ℝ) :=
  let num_positives_sum := labels.mean_num_positives.sum + 1.0
  let cls_losses := (labels.cls_targets.zip cls_outputs).map fun tc =>
    cls_loss_level p num_positives_sum tc.1 tc.2
  let box_losses := if p.box_loss_weight ≠ 0 then
    (labels.box_targets.zip box_outputs).map fun tb =>
      box_loss tb.2 tb.1 num_positives_sum p.delta
    else []
  let box_iou_losses := if p.iou_loss_type then
    (labels.box_targets.zip box_outputs).map fun tb =>
      box_iou_loss iou_fn tb.2 tb.1 num_positives_sum
    else []
  (add_n cls_losses).map fun cls_l =>
    let box_l := if box_losses.isEmpty then (0 : ℝ) else box_losses.sum
    let iou_l := if box_iou_losses.isEmpty then (0 : ℝ) else box_iou_losses.sum
    (cls_l + p.box_loss_weight * box_l + p.iou_loss_weight * iou_l,
      cls_l, box_l, iou_l)

end DetModelFn

namespace DetModelFn

lemma filter_eq_of_renamed {l l' : List (String × List ℝ)}
    (h : RenamedOutsidePattern l l') :
    l.filter (fun v => var_match v.1) = l'.filter (fun v => var_match v.1) := by
  induction h with
  | nil => rfl
  | @cons a b l₁ l₂ h₁ h₂ ih =>
    obtain ⟨hval, hmatch, hname⟩ := h₁
    by_cases hm : var_match a.1 = true
    · have hm' : var_match b.1 = true := by rw [← hmatch]; exact hm
      have hab : a = b := Prod.ext (hname hm) hval
      simp [List.filter_cons, hm, hm', hab, ih]
    · have hmf : var_match a.1 = false := Bool.not_eq_true _ ▸ eq_false_of_ne_true hm
      have hm' : var_match b.1 = false := by rw [← hmatch]; exact hmf
      simp [List.filter_cons, hmf, hm', ih]

lemma leadMatch_self (l : List Char) : leadMatch l l = true := by
  induction l with
  | nil => rfl
  | cons c cs ih => simp [leadMatch, ih]

lemma str_data_append (a b : String) : (a ++ b).data = a.data ++ b.data := by
  cases a
  cases b
  rfl

/-- The right half of a string concatenation is always contained in it. -/
lemma strContainsB_append_right (a b : String) : strContainsB (a ++ b) b = true := by
  apply List.any_eq_true.mpr
  refine ⟨a.data.length, ?_, ?_⟩
  · apply List.mem_range.mpr
    rw [str_data_append, List.length_append]
    omega
  · rw [str_data_append, List.drop_left]
    exact leadMatch_self b.data

end DetModelFn

/-- For `0 < w < T`, the cosine factor `cos (π w / T)` is strictly below 1 —
the source of the discontinuity of `cosine_lr_schedule` at the warmup boundary. -/
lemma cos_pi_mul_div_lt_one (w T : ℕ) (hw : 0 < w) (hT : w < T) :
    Real.cos (Real.pi * (w : ℝ) / (T : ℝ)) < 1 := by
  have hT0 : (0 : ℝ) < (T : ℝ) := by exact_mod_cast lt_trans hw hT
  have hw0 : (0 : ℝ) < (w : ℝ) := by exact_mod_cast hw
  have hx : 0 < Real.pi * (w : ℝ) / (T : ℝ) := by positivity
  have hle : Real.pi * (w : ℝ) / (T : ℝ) ≤ Real.pi := by
    rw [div_le_iff₀ hT0]
    have hwT : (w : ℝ) ≤ (T : ℝ) := by exact_mod_cast hT.le
    nlinarith [Real.pi_pos]
  have h := Real.cos_lt_cos_of_nonneg_of_le_pi (le_refl (0 : ℝ)) hle hx
  simpa using h

open DetModelFn

/-- C2: for `0 < lr_warmup_step ≤ first_lr_drop_step ≤ second_lr_drop_step`,
`stepwise_lr_schedule` is the linear warmup value below `lr_warmup_step`, and
`adjusted_learning_rate` times the multiplier of the highest reached threshold
(later thresholds overriding earlier ones) from `lr_warmup_step` on; at the
example record (0.08, 0, 500, 15000, 20000) the rate is 0, 0.08, 0.008, 0.0008
at steps 0, 500, 15000, 20000. -/
theorem stepwise_lr_schedule_spec (adj init : ℝ) (w f2 s2 : ℕ)
    (hw : 0 < w) (hwf : w ≤ f2) (hfs : f2 ≤ s2) :
    (∀ step : ℕ, step < w →
      stepwise_lr_schedule adj init w f2 s2 step =
        init + (step : ℝ) / (w : ℝ) * (adj - init)) ∧
    (∀ step : ℕ, w ≤ step →
      stepwise_lr_schedule adj init w f2 s2 step =
        adj * (if s2 ≤ step then 0.01 else if f2 ≤ step then 0.1 else 1.0)) ∧
    (stepwise_lr_schedule 0.08 0 500 15000 20000 0 = 0 ∧
     stepwise_lr_schedule 0.08 0 500 15000 20000 500 = 0.08 ∧
     stepwise_lr_schedule 0.08 0 500 15000 20000 15000 = 0.008 ∧
     stepwise_lr_schedule 0.08 0 500 15000 20000 20000 = 0.0008) := by
  refine ⟨?_, ?_, ?_, ?_, ?_, ?_⟩
  · intro step hstep
    have h1 : step < f2 := lt_of_lt_of_le hstep hwf
    have h2 : step < s2 := lt_of_lt_of_le h1 hfs
    simp only [stepwise_lr_schedule, if_pos hstep, if_pos h1, if_pos h2]
  · intro step hstep
    have hnw : ¬ step < w := not_lt.mpr hstep
    by_cases hs2 : s2 ≤ step
    · simp only [stepwise_lr_schedule, if_neg (not_lt.mpr hs2), if_pos hs2]
    · have hlt2 : step < s2 := not_le.mp hs2
      by_cases hf2 : f2 ≤ step
      · simp only [stepwise_lr_schedule, if_neg hnw, if_neg (not_lt.mpr hf2),
          if_pos hlt2, if_neg hs2, if_pos hf2, if_neg (not_le.mpr hlt2)]
      · have hltf : step < f2 := not_le.mp hf2
        simp only [stepwise_lr_schedule, if_neg hnw, if_pos hltf, if_pos hlt2,
          if_neg hs2, if_neg hf2]
  · norm_num [stepwise_lr_schedule]
  · norm_num [stepwise_lr_schedule]
  · norm_num [stepwise_lr_schedule]
  · norm_num [stepwise_lr_schedule]

/-- Witness for C2: the hypotheses hold at the example record, and the schedule
takes the post-warmup plateau value 0.08 at step 600. -/
theorem stepwise_lr_schedule_spec_witness :
    (0 < 500 ∧ 500 ≤ 15000 ∧ 15000 ≤ 20000) ∧
    stepwise_lr_schedule 0.08 0 500 15000 20000 600 = 0.08 := by
  refine ⟨⟨by decide, by decide, by decide⟩, ?_⟩
  have h := (stepwise_lr_schedule_spec 0.08 0 500 15000 20000
    (by decide) (by decide) (by decide)).2.1 600 (by decide)
  rw [h]
  norm_num

/-- C1: elementwise, `focal_loss` equals
`alpha_factor * modulating_factor * sigmoid_cross_entropy(target', y_pred) / normalizer`
with `p_t`, `alpha_factor`, `modulating_factor` computed from the raw target and
the smoothed target `target' = y_true*(1-s) + 0.5*s` used only in the cross
entropy; with `gamma = 0`, `alpha = 0.5`, `label_smoothing = 0` it reduces to
`0.5 * sigmoid_cross_entropy(y_true, y_pred) / normalizer`. -/
theorem focal_loss_spec (y_pred y_true : List ℝ) (alpha gamma normalizer label_smoothing : ℝ) :
    focal_loss_t y_pred y_true alpha gamma normalizer label_smoothing =
      (y_pred.zip y_true).map (fun v =>
        (v.2 * alpha + (1 - v.2) * (1 - alpha)) *
          (1 - (v.2 * sigmoid v.1 + (1 - v.2) * (1 - sigmoid v.1))) ^ gamma *
          sigmoid_cross_entropy_with_logits
            (v.2 * (1 - label_smoothing) + 0.5 * label_smoothing) v.1 / normalizer) ∧
    focal_loss_t y_pred y_true 0.5 0 normalizer 0 =
      (y_pred.zip y_true).map (fun v =>
        0.5 * sigmoid_cross_entropy_with_logits v.2 v.1 / normalizer) := by
  constructor
  · refine List.map_congr_left ?_
    intro v _
    simp only [focal_loss]
    norm_num
  · refine List.map_congr_left ?_
    intro v _
    simp only [focal_loss]
    rw [Real.rpow_zero]
    have hs : v.2 * (1.0 - (0 : ℝ)) + 0.5 * 0 = v.2 := by norm_num
    rw [hs]
    ring

/-- C5 (amended): with `lr_decay_method = 'cosine'` and
`0 < lr_warmup_step < total_steps`, the dispatched schedule is
`cosine_lr_schedule`; it is the linear warmup below `lr_warmup_step`, the
un-offset cosine value from `lr_warmup_step` on, and 0 at `total_steps`; at
`step = lr_warmup_step` it equals
`adjusted_lr * 0.5 * (1 + cos (π lr_warmup_step / total_steps))`, which is
strictly below `adjusted_lr` whenever `adjusted_lr > 0` — the boundary is not
continuous with the warmup ramp. -/
theorem cosine_schedule_spec (p : ScheduleParams) (hm : p.lr_decay_method = "cosine")
    (hw : 0 < p.lr_warmup_step) (hT : p.lr_warmup_step < p.total_steps) :
    (∀ step : ℕ, learning_rate_schedule p step =
        Except.ok (cosine_lr_schedule p.adjusted_learning_rate p.lr_warmup_init
          p.lr_warmup_step p.total_steps step)) ∧
    (∀ step : ℕ, step < p.lr_warmup_step →
        cosine_lr_schedule p.adjusted_learning_rate p.lr_warmup_init
            p.lr_warmup_step p.total_steps step =
          p.lr_warmup_init + (step : ℝ) / (p.lr_warmup_step : ℝ) *
            (p.adjusted_learning_rate - p.lr_warmup_init)) ∧
    (∀ step : ℕ, p.lr_warmup_step ≤ step →
        cosine_lr_schedule p.adjusted_learning_rate p.lr_warmup_init
            p.lr_warmup_step p.total_steps step =
          0.5 * p.adjusted_learning_rate *
            (1 + Real.cos (Real.pi * (step : ℝ) / (p.total_steps : ℝ)))) ∧
    cosine_lr_schedule p.adjusted_learning_rate p.lr_warmup_init
        p.lr_warmup_step p.total_steps p.total_steps = 0 ∧
    cosine_lr_schedule p.adjusted_learning_rate p.lr_warmup_init
        p.lr_warmup_step p.total_steps p.lr_warmup_step =
      0.5 * p.adjusted_learning_rate *
        (1 + Real.cos (Real.pi * (p.lr_warmup_step : ℝ) / (p.total_steps : ℝ))) ∧
    (0 < p.adjusted_learning_rate →
      cosine_lr_schedule p.adjusted_learning_rate p.lr_warmup_init
          p.lr_warmup_step p.total_steps p.lr_warmup_step < p.adjusted_learning_rate) := by
  have hTn : (0 : ℕ) < p.total_steps := lt_trans hw hT
  have hTR : ((p.total_steps : ℝ)) ≠ 0 := Nat.cast_ne_zero.mpr hTn.ne'
  have hafter : ∀ step : ℕ, p.lr_warmup_step ≤ step →
      cosine_lr_schedule p.adjusted_learning_rate p.lr_warmup_init
          p.lr_warmup_step p.total_steps step =
        0.5 * p.adjusted_learning_rate *
          (1 + Real.cos (Real.pi * (step : ℝ) / (p.total_steps : ℝ))) := by
    intro step hstep
    simp only [cosine_lr_schedule, if_neg (not_lt.mpr hstep)]
  refine ⟨?_, ?_, hafter, ?_, hafter _ le_rfl, ?_⟩
  · intro step
    simp [learning_rate_schedule, hm]
  · intro step hstep
    simp only [cosine_lr_schedule, if_pos hstep]
  · rw [hafter p.total_steps hT.le, mul_div_assoc, div_self hTR, mul_one, Real.cos_pi]
    ring
  · intro hadj
    rw [hafter _ le_rfl]
    have hc := cos_pi_mul_div_lt_one p.lr_warmup_step p.total_steps hw hT
    nlinarith

/-- Counterexample for C5 as stated: at `adjusted_lr = 1`, `lr_warmup_init = 0`,
`lr_warmup_step = 1`, `total_steps = 2`, the dispatched `cosine_lr_schedule`
returns `1/2` at `step = lr_warmup_step`, not `adjusted_lr = 1`: the claimed
continuity at the warmup boundary fails. -/
theorem cosine_schedule_boundary_counterexample :
    cosine_lr_schedule 1 0 1 2 1 = 1 / 2 ∧ (1 / 2 : ℝ) ≠ 1 := by
  constructor
  · simp only [cosine_lr_schedule, lt_irrefl, if_neg (lt_irrefl 1)]
    have h2 : Real.pi * ((1 : ℕ) : ℝ) / ((2 : ℕ) : ℝ) = Real.pi / 2 := by
      push_cast
      ring
    rw [h2, Real.cos_pi_div_two]
    norm_num
  · norm_num

/-- Witness for C5 (amended): the hypotheses hold at the concrete record
`("cosine", adj=1, init=0, w=1, T=2)`, where the schedule vanishes at
`total_steps`. -/
theorem cosine_schedule_spec_witness :
    ((ScheduleParams.mk "cosine" 1 0 1 0 0 0 2).lr_decay_method = "cosine" ∧
      0 < (ScheduleParams.mk "cosine" 1 0 1 0 0 0 2).lr_warmup_step ∧
      (ScheduleParams.mk "cosine" 1 0 1 0 0 0 2).lr_warmup_step <
        (ScheduleParams.mk "cosine" 1 0 1 0 0 0 2).total_steps) ∧
    cosine_lr_schedule 1 0 1 2 2 = 0 := by
  refine ⟨⟨rfl, by decide, by decide⟩, ?_⟩
  exact (cosine_schedule_spec (ScheduleParams.mk "cosine" 1 0 1 0 0 0 2) rfl
    (by decide) (by decide)).2.2.2.1

/-- C10 (amended): for `0 < lr_warmup_step < total_steps` and
`adjusted_lr ≠ 0`, the two cosine implementations differ at
`step = lr_warmup_step`: `cosine_lr_schedule_tf2` (warmup branch for
`step ≤ lr_warmup_step`, offset decay) returns `adjusted_lr`, while
`cosine_lr_schedule` (warmup only for `step < lr_warmup_step`, no offset)
returns `adjusted_lr * 0.5 * (1 + cos (π lr_warmup_step / total_steps))`;
and `learning_rate_schedule` with method `'cosine'` always dispatches to the
non-offset `cosine_lr_schedule`. -/
theorem cosine_variants_diverge (adj init : ℝ) (w T : ℕ)
    (hw : 0 < w) (hT : w < T) (ha : adj ≠ 0) :
    cosine_lr_schedule_tf2 adj init w T w = adj ∧
    cosine_lr_schedule adj init w T w =
      0.5 * adj * (1 + Real.cos (Real.pi * (w : ℝ) / (T : ℝ))) ∧
    cosine_lr_schedule_tf2 adj init w T w ≠ cosine_lr_schedule adj init w T w ∧
    ∀ (p : ScheduleParams) (step : ℕ), p.lr_decay_method = "cosine" →
      learning_rate_schedule p step =
        Except.ok (cosine_lr_schedule p.adjusted_learning_rate p.lr_warmup_init
          p.lr_warmup_step p.total_steps step) := by
  have hwR : ((w : ℝ)) ≠ 0 := Nat.cast_ne_zero.mpr hw.ne'
  have h1 : cosine_lr_schedule_tf2 adj init w T w = adj := by
    simp only [cosine_lr_schedule_tf2, if_pos (le_refl w)]
    rw [div_self hwR]
    ring
  have h2 : cosine_lr_schedule adj init w T w =
      0.5 * adj * (1 + Real.cos (Real.pi * (w : ℝ) / (T : ℝ))) := by
    simp only [cosine_lr_schedule, if_neg (lt_irrefl w)]
  refine ⟨h1, h2, ?_, ?_⟩
  · intro heq
    rw [h1, h2] at heq
    have hc := cos_pi_mul_div_lt_one w T hw hT
    have hz : adj * (1 - Real.cos (Real.pi * (w : ℝ) / (T : ℝ))) = 0 := by linarith
    rcases mul_eq_zero.mp hz with h | h
    · exact ha h
    · linarith
  · intro p step hm
    simp [learning_rate_schedule, hm]

/-- Counterexample for C10 as stated: at the degenerate record
`adjusted_lr = 0`, `lr_warmup_init = 0`, `lr_warmup_step = 1`,
`total_steps = 2` (which satisfies `0 < lr_warmup_step < total_steps`), the
two cosine implementations agree at every step, so there is no step at which
they differ. -/
theorem cosine_variants_degenerate_agree :
    (fun step : ℕ => cosine_lr_schedule_tf2 0 0 1 2 step) =
      (fun step : ℕ => cosine_lr_schedule 0 0 1 2 step) := by
  funext s
  simp only [cosine_lr_schedule_tf2, cosine_lr_schedule]
  split_ifs <;> ring

/-- Witness for C10 (amended): at `adj = 1`, `init = 0`, `w = 1`, `T = 2` the
hypotheses hold and the TF2 variant returns the full adjusted rate at the
warmup boundary. -/
theorem cosine_variants_diverge_witness :
    (0 < 1 ∧ 1 < 2 ∧ (1 : ℝ) ≠ 0) ∧ cosine_lr_schedule_tf2 1 0 1 2 1 = 1 := by
  refine ⟨⟨by decide, by decide, by norm_num⟩, ?_⟩
  exact (cosine_variants_diverge 1 0 1 2 (by decide) (by decide) (by norm_num)).1

/-- C6 (amended): the effective batch size is `batch_size * num_shards` exactly
when `strategy = 'tpu'` (the distributed/TPU case) and `batch_size` otherwise;
`adjusted_learning_rate = learning_rate * effective_batch_size / 64`;
`steps_per_epoch = num_examples_per_epoch / effective_batch_size`; and the
warmup/drop/total step fields are `int(epoch_count * steps_per_epoch)` — Python
`int()` truncation toward zero, not `round(...)`. -/
theorem update_lr_params_spec (p : LRParamsIn) :
    (p.strategy = "tpu" →
      (update_learning_rate_schedule_parameters p).adjusted_learning_rate =
        p.learning_rate * (p.batch_size * p.num_shards) / 64) ∧
    (p.strategy ≠ "tpu" →
      (update_learning_rate_schedule_parameters p).adjusted_learning_rate =
        p.learning_rate * p.batch_size / 64) ∧
    ((update_learning_rate_schedule_parameters p).lr_warmup_step =
      pyInt (p.lr_warmup_epoch * (p.num_examples_per_epoch /
        (if p.strategy = "tpu" then p.batch_size * p.num_shards else p.batch_size)))) ∧
    ((update_learning_rate_schedule_parameters p).first_lr_drop_step =
      pyInt (p.first_lr_drop_epoch * (p.num_examples_per_epoch /
        (if p.strategy = "tpu" then p.batch_size * p.num_shards else p.batch_size)))) ∧
    ((update_learning_rate_schedule_parameters p).second_lr_drop_step =
      pyInt (p.second_lr_drop_epoch * (p.num_examples_per_epoch /
        (if p.strategy = "tpu" then p.batch_size * p.num_shards else p.batch_size)))) ∧
    ((update_learning_rate_schedule_parameters p).total_steps =
      pyInt (p.num_epochs * (p.num_examples_per_epoch /
        (if p.strategy = "tpu" then p.batch_size * p.num_shards else p.batch_size)))) := by
  by_cases h : p.strategy = "tpu" <;>
    simp [update_learning_rate_schedule_parameters, h]

/-- Counterexample for C6 as stated: with `strategy = 'gpu'`, `batch_size = 2`,
`num_examples_per_epoch = 3`, `lr_warmup_epoch = 1`, `steps_per_epoch = 3/2`
and the code's `int(1 * 3/2)` gives 1, while the claimed `round(1 * 3/2)`
gives 2. -/
theorem update_lr_params_round_counterexample :
    (update_learning_rate_schedule_parameters
        (DetModelFn.LRParamsIn.mk "gpu" 2 1 1 3 1 1 1 1)).lr_warmup_step = 1 ∧
    round ((1 : ℚ) * (3 / 2)) = 2 ∧ (1 : ℤ) ≠ 2 := by
  refine ⟨?_, ?_, by decide⟩
  · norm_num [update_learning_rate_schedule_parameters, DetModelFn.pyInt]
  · rw [round_eq]
    norm_num

/-- Witness for C6 (amended): at a concrete TPU record with `batch_size = 4`,
`num_shards = 2`, the adjusted learning rate is scaled by the full replica
batch `8/64`. -/
theorem update_lr_params_spec_witness :
    (DetModelFn.LRParamsIn.mk "tpu" 4 2 1 16 1 1 1 1).strategy = "tpu" ∧
    (update_learning_rate_schedule_parameters
        (DetModelFn.LRParamsIn.mk "tpu" 4 2 1 16 1 1 1 1)).adjusted_learning_rate =
      1 * (4 * 2) / 64 := by
  exact ⟨rfl, (update_lr_params_spec (DetModelFn.LRParamsIn.mk "tpu" 4 2 1 16 1 1 1 1)).1 rfl⟩

/-- C9 (amended): `reg_l2_loss` is `weight_decay` times the sum of the L2
penalties of exactly the trainable variables whose names match the
`kernel|weight` pattern; it is invariant under renaming variables that do not
match the pattern (to other non-matching names); and when no variable matches
(e.g. a bias-only model) the code raises — `tf.add_n` on an empty list — rather
than returning zero. -/
theorem reg_l2_loss_spec :
    (∀ (wd : ℝ) (vars : List (String × List ℝ)),
      (vars.filter fun v => var_match v.1) ≠ [] →
      reg_l2_loss wd vars =
        some (wd * ((vars.filter fun v => var_match v.1).map fun v => l2_loss v.2).sum)) ∧
    (∀ (wd : ℝ) (vars vars' : List (String × List ℝ)),
      RenamedOutsidePattern vars vars' → reg_l2_loss wd vars = reg_l2_loss wd vars') ∧
    (∀ (wd : ℝ) (vars : List (String × List ℝ)),
      (∀ v ∈ vars, var_match v.1 = false) → reg_l2_loss wd vars = none) := by
  refine ⟨?_, ?_, ?_⟩
  · intro wd vars hne
    simp only [reg_l2_loss]
    rw [if_neg (by simpa [List.isEmpty_iff] using hne)]
  · intro wd vars vars' h
    have hval : ∀ {l l' : List (String × List ℝ)}, RenamedOutsidePattern l l' →
        (l.filter fun v => var_match v.1) = (l'.filter fun v => var_match v.1) :=
      fun hr => filter_eq_of_renamed hr
    simp only [reg_l2_loss, hval h]
  · intro wd vars hall
    have hnil : (vars.filter fun v => var_match v.1) = [] := by
      apply List.filter_eq_nil_iff.mpr
      intro v hv
      simp [hall v hv]
    simp only [reg_l2_loss, hnil]
    rfl

/-- Counterexample for C9 as stated: a bias-only variable set produces no
regularization value at all (the empty `tf.add_n` raises), not zero. -/
theorem reg_l2_loss_bias_only_counterexample :
    reg_l2_loss 1 [("model/bias:0", [1, 2])] = none ∧
    reg_l2_loss 1 [("model/bias:0", [(1 : ℝ), 2])] ≠ some 0 := by
  have h : reg_l2_loss 1 [("model/bias:0", [(1 : ℝ), 2])] = none := by
    have hm : var_match "model/bias:0" = false := by decide
    simp [reg_l2_loss, List.filter_cons, hm]
  exact ⟨h, by rw [h]; exact fun hc => Option.noConfusion hc⟩

/-- Witness for C9 (amended): a single matching kernel variable yields the
scaled L2 sum. -/
theorem reg_l2_loss_spec_witness :
    ([(("w/kernel:0", [(3 : ℝ)]))].filter fun v => var_match v.1) ≠ [] ∧
    reg_l2_loss 2 [("w/kernel:0", [(3 : ℝ)])] =
      some (2 * ((([(("w/kernel:0", [(3 : ℝ)]))].filter fun v => var_match v.1).map
        fun v => l2_loss v.2).sum)) := by
  have hm : var_match "w/kernel:0" = true := by decide
  have hne : ([(("w/kernel:0", [(3 : ℝ)]))].filter fun v => var_match v.1) ≠ [] := by
    simp [List.filter_cons, hm]
  exact ⟨hne, reg_l2_loss_spec.1 2 [("w/kernel:0", [(3 : ℝ)])] hne⟩

/-- C7 (amended): in TRAIN mode, supplying both `ckpt` and `backbone_ckpt`
(with otherwise valid configuration) raises
`RuntimeError('--backbone_ckpt and --checkpoint are mutually exclusive')`, but
only at checkpoint-restore setup — after the forward pass, the loss graph, and
the gradient build, not before any tensor computation. -/
theorem ckpt_conflict_spec (p : ModelFnParams)
    (hmethod : valid_lr_decay_method p.lr_decay_method = true)
    (hopt : pyLower p.optimizer = "sgd" ∨ pyLower p.optimizer = "adam")
    (hc : truthy p.ckpt = true) (hb : truthy p.backbone_ckpt = true) :
    (model_fn_trace Mode.train p).2 =
      some "--backbone_ckpt and --checkpoint are mutually exclusive" ∧
    (model_fn_trace Mode.train p).1 =
      [MFEvent.forwardPass, MFEvent.lrDispatch, MFEvent.lossBuild,
        MFEvent.optimizerSelect, MFEvent.gradientBuild, MFEvent.ckptConflictRaise] ∧
    MFEvent.forwardPass ∈
      (model_fn_trace Mode.train p).1.takeWhile (fun e => !(e == MFEvent.ckptConflictRaise)) ∧
    MFEvent.lossBuild ∈
      (model_fn_trace Mode.train p).1.takeWhile (fun e => !(e == MFEvent.ckptConflictRaise)) := by
  have htr : model_fn_trace Mode.train p =
      ([MFEvent.forwardPass, MFEvent.lrDispatch, MFEvent.lossBuild,
        MFEvent.optimizerSelect, MFEvent.gradientBuild, MFEvent.ckptConflictRaise],
        some "--backbone_ckpt and --checkpoint are mutually exclusive") := by
    simp [model_fn_trace, hmethod, hopt, hc, hb]
  refine ⟨by rw [htr], by rw [htr], ?_, ?_⟩ <;> rw [htr] <;> decide

/-- Counterexample for C7 as stated: with both checkpoints supplied in TRAIN
mode, the trace shows the forward pass, LR dispatch, loss build, optimizer
selection and gradient build all occurring strictly before the conflict is
raised — the raise is not before tensor computation. -/
theorem ckpt_conflict_counterexample :
    model_fn_trace Mode.train
        (DetModelFn.ModelFnParams.mk "stepwise" "sgd" (some "a.ckpt") (some "b.ckpt")) =
      ([MFEvent.forwardPass, MFEvent.lrDispatch, MFEvent.lossBuild,
        MFEvent.optimizerSelect, MFEvent.gradientBuild, MFEvent.ckptConflictRaise],
        some "--backbone_ckpt and --checkpoint are mutually exclusive") ∧
    MFEvent.forwardPass ∈
      (model_fn_trace Mode.train
        (DetModelFn.ModelFnParams.mk "stepwise" "sgd" (some "a.ckpt")
          (some "b.ckpt"))).1.takeWhile (fun e => !(e == MFEvent.ckptConflictRaise)) := by
  constructor <;> decide

/-- Witness for C7 (amended): the hypotheses hold at the concrete TRAIN record
with both checkpoints set, and the conflict error is raised. -/
theorem ckpt_conflict_spec_witness :
    (valid_lr_decay_method "stepwise" = true ∧
      pyLower "sgd" = "sgd" ∧
      truthy (some "a.ckpt") = true ∧ truthy (some "b.ckpt") = true) ∧
    (model_fn_trace Mode.train
        (DetModelFn.ModelFnParams.mk "stepwise" "sgd" (some "a.ckpt") (some "b.ckpt"))).2 =
      some "--backbone_ckpt and --checkpoint are mutually exclusive" := by
  refine ⟨⟨by decide, by decide, by decide, by decide⟩, ?_⟩
  exact (ckpt_conflict_spec
    (DetModelFn.ModelFnParams.mk "stepwise" "sgd" (some "a.ckpt") (some "b.ckpt"))
    (by decide) (Or.inl (by decide)) (by decide) (by decide)).1

/-- C8 (amended): each dispatcher fails fast on an unrecognized value —
`learning_rate_schedule` and `get_model_fn` with the offending value embedded
in the message, while the TRAIN-mode optimizer selection raises the fixed
message `'optimizers should be adam or sgd'` that does not embed the value;
`get_model_fn` validates before anything else runs, whereas the LR dispatch
and optimizer selection raise after the forward pass (LR dispatch before the
loss graph, optimizer selection before the gradient build). -/
theorem dispatcher_errors_spec :
    (∀ (p : ScheduleParams) (step : ℕ), valid_lr_decay_method p.lr_decay_method = false →
      learning_rate_schedule p step =
        Except.error ("unknown lr_decay_method: " ++ p.lr_decay_method) ∧
      strContainsB ("unknown lr_decay_method: " ++ p.lr_decay_method)
        p.lr_decay_method = true) ∧
    (∀ opt : String, pyLower opt ≠ "sgd" → pyLower opt ≠ "adam" →
      select_optimizer opt = Except.error "optimizers should be adam or sgd") ∧
    (∀ name : String, strContainsB name "retinanet" = false →
      strContainsB name "efficientdet" = false →
      get_model_fn name = Except.error ("Invalide model name " ++ name) ∧
      strContainsB ("Invalide model name " ++ name) name = true) ∧
    (∀ p : ModelFnParams, valid_lr_decay_method p.lr_decay_method = false →
      model_fn_trace Mode.train p =
        ([MFEvent.forwardPass, MFEvent.lrDispatch],
          some ("unknown lr_decay_method: " ++ p.lr_decay_method))) ∧
    (∀ p : ModelFnParams, valid_lr_decay_method p.lr_decay_method = true →
      pyLower p.optimizer ≠ "sgd" → pyLower p.optimizer ≠ "adam" →
      model_fn_trace Mode.train p =
        ([MFEvent.forwardPass, MFEvent.lrDispatch, MFEvent.lossBuild,
          MFEvent.optimizerSelect], some "optimizers should be adam or sgd")) := by
  refine ⟨?_, ?_, ?_, ?_, ?_⟩
  · intro p step hm
    simp only [valid_lr_decay_method, Bool.or_eq_false_iff, beq_eq_false_iff_ne] at hm
    obtain ⟨⟨⟨h1, h2⟩, h3⟩, h4⟩ := hm
    refine ⟨?_, strContainsB_append_right "unknown lr_decay_method: " p.lr_decay_method⟩
    simp [learning_rate_schedule, h1, h2, h3, h4]
  · intro opt h1 h2
    simp [select_optimizer, h1, h2]
  · intro name h1 h2
    refine ⟨?_, strContainsB_append_right "Invalide model name " name⟩
    simp [get_model_fn, h1, h2]
  · intro p hm
    simp [model_fn_trace, hm]
  · intro p hm h1 h2
    have hopt : ¬ (pyLower p.optimizer = "sgd" ∨ pyLower p.optimizer = "adam") := by
      rintro (h | h)
      · exact h1 h
      · exact h2 h
    simp [model_fn_trace, hm, hopt]

/-- Counterexample for C8 as stated: the optimizer dispatcher rejects
`'rmsprop'` but its error message `'optimizers should be adam or sgd'` does
not embed the offending value. -/
theorem optimizer_error_counterexample :
    select_optimizer "rmsprop" = Except.error "optimizers should be adam or sgd" ∧
    strContainsB "optimizers should be adam or sgd" "rmsprop" = false := by
  constructor
  · rfl
  · decide

/-- Witness for C8 (amended): the unknown optimizer `'rmsprop'` and the unknown
model name `'resnet50'` are rejected with the stated errors. -/
theorem dispatcher_errors_spec_witness :
    (pyLower "rmsprop" ≠ "sgd" ∧ pyLower "rmsprop" ≠ "adam" ∧
      strContainsB "resnet50" "retinanet" = false ∧
      strContainsB "resnet50" "efficientdet" = false) ∧
    select_optimizer "rmsprop" = Except.error "optimizers should be adam or sgd" ∧
    get_model_fn "resnet50" = Except.error ("Invalide model name " ++ "resnet50") := by
  refine ⟨⟨by decide, by decide, by decide, by decide⟩, ?_, ?_⟩
  · exact dispatcher_errors_spec.2.1 "rmsprop" (by decide) (by decide)
  · exact (dispatcher_errors_spec.2.2.1 "resnet50" (by decide) (by decide)).1

/-- C3: for labels whose `mean_num_positives` entries are all non-negative,
`detection_loss` computes `num_positives_sum = sum(mean_num_positives) + 1.0`,
which is at least 1 (hence nonzero, so the normalizing division is never a
division by zero), and uses exactly this value as the normalizer of the
classification, box-regression and box-IoU losses. -/
theorem num_positives_guard_spec (iou_fn : List ℝ → List ℝ → List ℝ)
    (cls_outputs : List (List (List ℝ))) (box_outputs : List (List ℝ))
    (labels : DetLabels) (p : DetParams)
    (h : ∀ x ∈ labels.mean_num_positives, 0 ≤ x) :
    1 ≤ labels.mean_num_positives.sum + 1.0 ∧
    labels.mean_num_positives.sum + 1.0 ≠ 0 ∧
    detection_loss iou_fn cls_outputs box_outputs labels p =
      detection_loss_with iou_fn cls_outputs box_outputs labels p
        (labels.mean_num_positives.sum + 1.0) := by
  have h0 : 0 ≤ labels.mean_num_positives.sum := List.sum_nonneg h
  refine ⟨by norm_num; linarith, by norm_num; linarith, rfl⟩

/-- Witness for C3: a batch with `mean_num_positives = [0]` (no positives at
all) still gets normalizer `0 + 1.0 ≥ 1`. -/
theorem num_positives_guard_spec_witness :
    1 ≤ List.sum [(0 : ℝ)] + 1.0 ∧
    detection_loss (fun _ _ => []) [[[1]]] [[0]]
        (DetModelFn.DetLabels.mk [(0 : ℝ)] [[-2]] [[0]])
        (DetModelFn.DetParams.mk 1 0.25 1.5 0 0.1 1 1 false) =
      detection_loss_with (fun _ _ => []) [[[1]]] [[0]]
        (DetModelFn.DetLabels.mk [(0 : ℝ)] [[-2]] [[0]])
        (DetModelFn.DetParams.mk 1 0.25 1.5 0 0.1 1 1 false)
        (List.sum [(0 : ℝ)] + 1.0) := by
  have h := num_positives_guard_spec (fun _ _ => []) [[[1]]] [[0]]
    (DetModelFn.DetLabels.mk [(0 : ℝ)] [[-2]] [[0]])
    (DetModelFn.DetParams.mk 1 0.25 1.5 0 0.1 1 1 false)
    (by intro x hx; rw [List.mem_singleton] at hx; rw [hx])
  exact ⟨h.1, h.2.2⟩

/-- C4: excluded positions contribute nothing — when every class target at
every level is the ignore sentinel `-2`, the classification loss component of
`detection_loss` is exactly 0; and `_box_loss` on an all-zero box-target
tensor is exactly 0 (every position masked out). -/
theorem excluded_positions_zero_loss (iou_fn : List ℝ → List ℝ → List ℝ)
    (cls_outputs : List (List (List ℝ))) (box_outputs : List (List ℝ))
    (labels : DetLabels) (p : DetParams)
    (hne : labels.cls_targets ≠ [])
    (hlen : labels.cls_targets.length ≤ cls_outputs.length)
    (hall : ∀ lvl ∈ labels.cls_targets, ∀ t ∈ lvl, t = -2) :
    ((detection_loss iou_fn cls_outputs box_outputs labels p).map fun r => r.2.1) =
      some 0 ∧
    ∀ (bo : List ℝ) (np delta : ℝ) (n : ℕ),
      box_loss bo (List.replicate n 0) np delta = 0 := by
  constructor
  · have hzero : ∀ c ∈ (labels.cls_targets.zip cls_outputs).map
        (fun tc => cls_loss_level p (labels.mean_num_positives.sum + 1.0) tc.1 tc.2),
        c = 0 := by
      intro c hc
      rw [List.mem_map] at hc
      obtain ⟨tc, htc, rfl⟩ := hc
      obtain ⟨t1, t2⟩ := tc
      have htg : t1 ∈ labels.cls_targets := (List.of_mem_zip htc).1
      apply List.sum_eq_zero
      intro x hx
      rw [List.mem_map] at hx
      obtain ⟨⟨u1, u2⟩, hu, rfl⟩ := hx
      have hu1 : u1 = -2 := hall t1 htg u1 (List.of_mem_zip hu).1
      rw [if_pos hu1, zero_mul]
    have hzne : labels.cls_targets.zip cls_outputs ≠ [] := by
      intro hz
      have hl := congrArg List.length hz
      rw [List.length_zip] at hl
      simp only [List.length_nil] at hl
      rcases Nat.min_eq_zero_iff.mp hl with h | h
      · exact hne (List.length_eq_zero.mp h)
      · have : labels.cls_targets.length = 0 := Nat.le_antisymm (h ▸ hlen) (Nat.zero_le _)
        exact hne (List.length_eq_zero.mp this)
    have haddn : add_n ((labels.cls_targets.zip cls_outputs).map
        (fun tc => cls_loss_level p (labels.mean_num_positives.sum + 1.0) tc.1 tc.2)) =
        some 0 := by
      rw [add_n, if_neg (by simpa [List.isEmpty_iff] using hzne)]
      exact congrArg some (List.sum_eq_zero hzero)
    simp only [detection_loss]
    rw [haddn]
    simp
  · intro bo np delta n
    have hs : (((List.replicate n (0 : ℝ)).zip bo).map (fun tb =>
        (if tb.1 = 0 then (0 : ℝ) else 1) * huber_pointwise delta (tb.2 - tb.1))).sum
        = 0 := by
      apply List.sum_eq_zero
      intro x hx
      rw [List.mem_map] at hx
      obtain ⟨⟨u1, u2⟩, hu, rfl⟩ := hx
      have hu1 : u1 = 0 := List.eq_of_mem_replicate (List.of_mem_zip hu).1
      rw [if_pos hu1, zero_mul]
    simp only [box_loss]
    rw [hs, zero_div]

/-- Witness for C4: one level whose two anchors are both ignored (`-2`)
produces classification loss exactly 0. -/
theorem excluded_positions_zero_loss_witness :
    ((DetModelFn.DetLabels.mk [(0 : ℝ)] [[-2, -2]] [[0, 0]]).cls_targets ≠ [] ∧
      (DetModelFn.DetLabels.mk [(0 : ℝ)] [[-2, -2]] [[0, 0]]).cls_targets.length ≤ 1) ∧
    ((detection_loss (fun _ _ => []) [[[1, 2], [3, 4]]] [[0, 0]]
        (DetModelFn.DetLabels.mk [(0 : ℝ)] [[-2, -2]] [[0, 0]])
        (DetModelFn.DetParams.mk 2 0.25 1.5 0.1 0.1 1 1 false)).map fun r => r.2.1) =
      some 0 := by
  refine ⟨⟨by decide, by decide⟩, ?_⟩
  exact (excluded_positions_zero_loss (fun _ _ => []) [[[1, 2], [3, 4]]] [[0, 0]]
    (DetModelFn.DetLabels.mk [(0 : ℝ)] [[-2, -2]] [[0, 0]])
    (DetModelFn.DetParams.mk 2 0.25 1.5 0.1 0.1 1 1 false)
    (by decide) (by decide) (by decide)).1
